import Mathlib

/-!
Verification of the Report Ingestion & Extraction Pipeline
(`parse_reports.py`, `search_sharepoint.py`, `function_app.py`).

The Python source is shallowly embedded: dynamic values that can appear in a
SharePoint list field or in a spreadsheet cell are modelled by `CellValue`
(Python `None`, strings, integers and booleans — the value kinds the relevant
code paths can see; numeric cells are modelled by integers).  HTTP calls are
modelled by environments recording the status of each fetch, and the functions
below re-trace the branch structure of the corresponding Python functions.
-/

namespace MonthlyReport

/-- A dynamic value as surfaced to the Python code: a SharePoint list field
(`item['fields'].get(...)`) or an openpyxl cell `.value`.  `vNone` is Python
`None`; numeric values are modelled by integers. -/
inductive CellValue where
  | vNone
  | vStr (s : String)
  | vInt (n : Int)
  | vBool (b : Bool)
deriving DecidableEq, Repr

/-- Python truthiness: `None`, the empty string, zero and `False` are falsy. -/
def pyTruthy : CellValue → Bool
  | .vNone => false
  | .vStr s => !(s == "")
  | .vInt n => !(n == 0)
  | .vBool b => b

/-- Python `str(...)` of a value, as substituted by an f-string:
`str(None) = "None"`, `str(True) = "True"`. -/
def pyStr : CellValue → String
  | .vNone => "None"
  | .vStr s => s
  | .vInt n => toString n
  | .vBool b => if b then "True" else "False"

/-- Python `==` between values: booleans compare equal to the integers 0/1,
values of unrelated kinds compare unequal. -/
def pyEq : CellValue → CellValue → Bool
  | .vNone, .vNone => true
  | .vStr s, .vStr t => s == t
  | .vInt m, .vInt n => m == n
  | .vBool a, .vBool b => a == b
  | .vBool a, .vInt n => (if a then (1 : Int) else 0) == n
  | .vInt n, .vBool a => n == (if a then (1 : Int) else 0)
  | _, _ => false

/-- Python `a or b`: the first operand if truthy, otherwise the second. -/
def pyOr (a b : CellValue) : CellValue := if pyTruthy a then a else b

/-- The characters Python's `str.strip()` removes (ASCII whitespace). -/
def isPyWhitespace (c : Char) : Bool :=
  c == ' ' || c == '\t' || c == '\n' || c == '\r' || c == Char.ofNat 11 || c == Char.ofNat 12

/-- Python `s.strip()`: remove leading and trailing whitespace. -/
def pyStrip (s : String) : String :=
  String.mk (((s.toList.dropWhile isPyWhitespace).reverse.dropWhile isPyWhitespace).reverse)

/-- Python `s.rstrip('/')`: remove trailing slashes (used for `full_url`). -/
def pyRstripSlash (s : String) : String :=
  String.mk ((s.toList.reverse.dropWhile (fun c => c == '/')).reverse)

/-- The literal list `[True, 'Yes', 'true', '1', 1, 'True']` the source tests
the processed flag against (parse_reports.py:503 and :1006). -/
def processedMarkers : List CellValue :=
  [.vBool true, .vStr "Yes", .vStr "true", .vStr "1", .vInt 1, .vStr "True"]

/-- `monthly_report_processed in [True, 'Yes', 'true', '1', 1, 'True']`,
membership decided with Python `==`. -/
def isProcessedMark (v : CellValue) : Bool := processedMarkers.any (fun m => pyEq v m)

/-- The fields of one SharePoint list row that the pipeline reads
(`fields.get('Path', '')`, `fields.get('Reportfilename', '')`, the four
processed-flag field-name variants read by `process_sharepoint_files`, the
`Monthlyreportprocessed` field read by `process_sharepoint_list_files`, and
`fields.get('manager', '')`).  An absent field is `vNone` (no-default `get`)
or the empty string (`get` with default `''`). -/
structure SPFields where
  path : String
  reportfilename : String
  processedA : CellValue
  processedB : CellValue
  processedC : CellValue
  processedD : CellValue
  monthlyreportprocessed : CellValue
  manager : String
deriving DecidableEq, Repr

/-- One item of the SharePoint list query result: `item.get('id', '')` and
`item.get('fields', {})`. -/
structure SPItem where
  id : String
  fields : SPFields
deriving DecidableEq, Repr

/-- The `or`-chain over the four processed-flag field-name variants ending in
`False` (parse_reports.py:494-500). -/
def processedValue (f : SPFields) : CellValue :=
  pyOr f.processedA (pyOr f.processedB (pyOr f.processedC (pyOr f.processedD (.vBool false))))

/-- `filename = f"{filename.strip()}.xlsx"` (parse_reports.py:491). -/
def mkReportFilename (raw : String) : String := pyStrip raw ++ ".xlsx"

/-- The filename `process_sharepoint_files` builds for a list row. -/
def spf_filename (f : SPFields) : String := mkReportFilename f.reportfilename

/-- The candidate filter of `process_sharepoint_files`
(parse_reports.py:503): `if (filename and monthly_report_processed not in
[True, 'Yes', 'true', '1', 1, 'True'])`.  There is no owner check and no
path check in this function. -/
def spf_candidate (f : SPFields) : Bool :=
  decide (spf_filename f ≠ "") && !(isProcessedMark (processedValue f))

/-- The candidate filter of `process_sharepoint_list_files`
(parse_reports.py:991-1006): skip when `Monthlyreportprocessed is True`,
skip when `manager != 'Julian Brown'`, skip when path or filename is empty,
then keep when the processed value is not one of the true-variants. -/
def splf_candidate (f : SPFields) : Bool :=
  if f.monthlyreportprocessed = CellValue.vBool true then false
  else if f.manager ≠ "Julian Brown" then false
  else if f.path = "" ∨ f.reportfilename = "" then false
  else if f.reportfilename ≠ "" ∧ f.path ≠ "" then
    !(isProcessedMark f.monthlyreportprocessed)
  else false

/-- The record `process_sharepoint_files` appends to `excel_files`
(parse_reports.py:505-511), the raw `fields` entry omitted. -/
structure ExcelFileInfo where
  filename : String
  path : String
  full_url : String
  item_id : String
deriving DecidableEq, Repr

/-- Construction of one `excel_files` entry from a list item. -/
def mkExcelFileInfo (it : SPItem) : ExcelFileInfo :=
  { filename := spf_filename it.fields,
    path := it.fields.path,
    full_url := pyRstripSlash it.fields.path ++ "/" ++ spf_filename it.fields,
    item_id := it.id }

/-- The filtering loop of `process_sharepoint_files` over the list items
(parse_reports.py:484-511). -/
def spf_excel_files (items : List SPItem) : List ExcelFileInfo :=
  items.filterMap (fun it =>
    if spf_candidate it.fields then some (mkExcelFileInfo it) else none)

/-- The per-item processing loop of `process_sharepoint_files`
(parse_reports.py:520-543): a failed download or a failed processing of one
item only skips that item (`continue`); a successful item increments
`success_count`.  `itemSucceeds` abstracts the download-and-publish outcome
of one item. -/
def spfLoop (itemSucceeds : ExcelFileInfo → Bool) : List ExcelFileInfo → Nat → Nat
  | [], acc => acc
  | f :: rest, acc => spfLoop itemSucceeds rest (if itemSucceeds f then acc + 1 else acc)

/-- `process_sharepoint_files` (parse_reports.py:452-550), returning its
Python return value together with the post-run state of the SharePoint list.
The call `mark_file_as_processed(access_token, file_info['item_id'])` at
parse_reports.py:537 is commented out in the source (and the function is not
defined anywhere), so the loop performs no write against the list: the list
state is returned unchanged.  The return value is `success_count > 0`
(parse_reports.py:546), a boolean. -/
def process_sharepoint_files_run (tokenOk : Bool) (listItems : List SPItem)
    (itemSucceeds : ExcelFileInfo → Bool) : Bool × List SPItem :=
  if !tokenOk then (false, listItems)
  else if listItems.isEmpty then (false, listItems)
  else
    let excel := spf_excel_files listItems
    if excel.isEmpty then (false, listItems)
    else (decide (0 < spfLoop itemSucceeds excel 0), listItems)

/-- Outcome of the underlying Graph API traffic of one call to
`get_sharepoint_list_items` (search_sharepoint.py:50-143): either the
connection failed (an exception was raised, or the site/list fetches all
returned non-success), or the list answered with its rows. -/
inductive ListQueryOutcome where
  | connectionError
  | ok (items : List SPItem)

/-- `get_sharepoint_list_items` (search_sharepoint.py:50-143): every failure
branch — the `except` handler at :141-143 and each non-success site/list
fetch branch at :85, :89, :139 — returns `[]`; the success branch at :113
returns the rows. -/
def get_sharepoint_list_items (outcome : ListQueryOutcome) : List SPItem :=
  match outcome with
  | .connectionError => []
  | .ok items => items

/-- The message `http_trigger` logs and returns (function_app.py:13-17):
`f'Processed {filecount} files.'` where `filecount` is the value returned by
`process_sharepoint_files`. -/
def http_trigger_message (tokenOk : Bool) (listItems : List SPItem)
    (itemSucceeds : ExcelFileInfo → Bool) : String :=
  "Processed " ++
    pyStr (.vBool (process_sharepoint_files_run tokenOk listItems itemSucceeds).1) ++ " files."

/-- An openpyxl merged-cell range, by its `bounds`
`(min_col, min_row, max_col, max_row)`. -/
structure MergeRange where
  minCol : Nat
  minRow : Nat
  maxCol : Nat
  maxRow : Nat
deriving DecidableEq, Repr

/-- A worksheet: per-cell values (column index, A = 1, then row index) as
openpyxl returns them after loading with `data_only=True`, plus the list of
merged ranges. -/
structure Sheet where
  cells : Nat → Nat → CellValue
  mergedRanges : List MergeRange

/-- openpyxl coordinate membership `"E33" in merged_range`:
the cell lies within the range's bounds. -/
def rangeContains (r : MergeRange) (col row : Nat) : Bool :=
  decide (r.minCol ≤ col) && decide (col ≤ r.maxCol) &&
    decide (r.minRow ≤ row) && decide (row ≤ r.maxRow)

/-- `is_cell_merged` (parse_reports.py:373-378): the first merged range
containing the cell, if any. -/
def is_cell_merged (sheet : Sheet) (col row : Nat) : Bool × Option MergeRange :=
  match sheet.mergedRanges.find? (fun r => rangeContains r col row) with
  | some r => (true, some r)
  | none => (false, none)

/-- The overlap test of parse_reports.py:296:
`not (max_col < 4 or min_col > 19 or max_row < 31 or min_row > 72)`. -/
def overlapsTableRegion (r : MergeRange) : Bool :=
  !(decide (r.maxCol < 4) || decide (r.minCol > 19) ||
    decide (r.maxRow < 31) || decide (r.minRow > 72))

/-- The rectangle of columns 4–19 and rows 31–72 shares at least one cell
with the range. -/
def intersectsTableRegion (r : MergeRange) : Prop :=
  ∃ c w, r.minCol ≤ c ∧ c ≤ r.maxCol ∧ 4 ≤ c ∧ c ≤ 19 ∧
    r.minRow ≤ w ∧ w ≤ r.maxRow ∧ 31 ≤ w ∧ w ≤ 72

/-- The merge-normalization step of `_process_workbook_data`
(parse_reports.py:287-299): if cell E33 (column 5, row 33) is merged, every
merged range overlapping the region of columns 4–19 and rows 31–72 is
unmerged; otherwise no action is taken.  Unmerging does not change the
values openpyxl reports for the cells. -/
def unmergeStep (sheet : Sheet) : Sheet :=
  if (is_cell_merged sheet 5 33).1 then
    { cells := sheet.cells,
      mergedRanges := sheet.mergedRanges.filter (fun r => !(overlapsTableRegion r)) }
  else sheet

/-- Value of one cell, `sheet[f'{col}{row}'].value`. -/
def cellAt (sheet : Sheet) (col row : Nat) : CellValue := sheet.cells col row

/-- The service-standards rows (parse_reports.py:315-317): rows 34–42,
a row emitted when `sheet[f'D{row}'].value` is truthy, columns D, J, K
joined by `|`. -/
def serviceStandardLines (sheet : Sheet) : List String :=
  (List.range' 34 9).filterMap (fun row =>
    if pyTruthy (cellAt sheet 4 row) then
      some (pyStr (cellAt sheet 4 row) ++ "|" ++ pyStr (cellAt sheet 10 row) ++ "|" ++
        pyStr (cellAt sheet 11 row))
    else none)

/-- The service-risks rows (parse_reports.py:324-326): rows 45–47, columns
D, E, H, J, K. -/
def riskLines (sheet : Sheet) : List String :=
  (List.range' 45 3).filterMap (fun row =>
    if pyTruthy (cellAt sheet 4 row) then
      some (pyStr (cellAt sheet 4 row) ++ "|" ++ pyStr (cellAt sheet 5 row) ++ "|" ++
        pyStr (cellAt sheet 8 row) ++ "|" ++ pyStr (cellAt sheet 10 row) ++ "|" ++
        pyStr (cellAt sheet 11 row))
    else none)

/-- The service-issues rows (parse_reports.py:333-335): rows 50–52, columns
D, E, J, K. -/
def issueLines (sheet : Sheet) : List String :=
  (List.range' 50 3).filterMap (fun row =>
    if pyTruthy (cellAt sheet 4 row) then
      some (pyStr (cellAt sheet 4 row) ++ "|" ++ pyStr (cellAt sheet 5 row) ++ "|" ++
        pyStr (cellAt sheet 10 row) ++ "|" ++ pyStr (cellAt sheet 11 row))
    else none)

/-- `str(sheet['D57'].value) if sheet['D57'].value else ""`
(parse_reports.py:340 and :345). -/
def freeTextCell (sheet : Sheet) (col row : Nat) : String :=
  if pyTruthy (cellAt sheet col row) then pyStr (cellAt sheet col row) else ""

/-- The `content_lines` list built by `_process_workbook_data`
(parse_reports.py:305-345). -/
def buildContentLines (sheet : Sheet) : List String :=
  ["Week Ending: " ++ pyStr (cellAt sheet 7 7),
   "Service Provider: " ++ pyStr (cellAt sheet 7 11),
   "Client: " ++ pyStr (cellAt sheet 7 13),
   "",
   "Service Standard updates:",
   "SSN|Status|Comments"]
  ++ serviceStandardLines sheet
  ++ ["", "Service Risks:", "Risk No|Description|Likelihood|Impact|Mitigation"]
  ++ riskLines sheet
  ++ ["", "Service Issues:", "Issue No|Description|Impact|Mitigation"]
  ++ issueLines sheet
  ++ ["", "Planned Activities:", freeTextCell sheet 4 57]
  ++ ["", "Client Updates:", freeTextCell sheet 4 67]

/-- `file_content = "\n".join(content_lines)` (parse_reports.py:348), run
after the merge-normalization step. -/
def extractArtifactText (sheet : Sheet) : String :=
  String.intercalate "\n" (buildContentLines (unmergeStep sheet))

/-- `name, ext = output_name.rsplit('.', 1) if '.' in output_name else
(output_name, 'xlsx')` (parse_reports.py:302): the part before the final
dot, or the whole name when there is no dot. -/
def dropFinalExtension (s : String) : String :=
  match s.toList.reverse.dropWhile (fun c => !(c == '.')) with
  | [] => s
  | _ :: rest => String.mk rest.reverse

/-- `fname = f"{name}.txt"` (parse_reports.py:303). -/
def outputTxtName (outputName : String) : String := dropFinalExtension outputName ++ ".txt"

/-- Where a published artifact ended up. -/
inductive StoredArtifact where
  | remote (name text : String)
  | localFile (name text : String)
deriving DecidableEq, Repr

/-- Outcome environment for one publish: whether the SharePoint upload
(`upload_text_to_sharepoint`) succeeds and whether the local file write
succeeds. -/
structure PublishEnv where
  uploadSucceeds : Bool
  localWriteSucceeds : Bool
deriving DecidableEq, Repr

/-- The publish tail of `_process_workbook_data` (parse_reports.py:353-371):
with an access token, upload first and return success on upload success;
otherwise (or without a token) fall back to the local write of the full text
to `fname`; a failed local write raises and the handler returns `False`. -/
def publishStep (hasToken : Bool) (env : PublishEnv) (text fname : String) :
    Bool × List StoredArtifact :=
  if hasToken && env.uploadSucceeds then (true, [.remote fname text])
  else if env.localWriteSucceeds then (true, [.localFile fname text])
  else (false, [])

/-- The text content held by a stored artifact. -/
def artifactPayload : StoredArtifact → String
  | .remote _ t => t
  | .localFile _ t => t

/-- One result row of the drive search fallback
(parse_reports.py:860-881): its name, whether its detail fetch returns
success, whether the detail carries a download URL, whether the content
fetch returns success, and the content bytes. -/
structure SearchHit where
  name : String
  detailOk : Bool
  hasDownloadUrl : Bool
  contentOk : Bool
  content : String
deriving DecidableEq, Repr

/-- Outcome environment of the HTTP traffic of one call to
`download_sharepoint_file_from_path`: the site-info fetch, the direct-path
metadata fetch, the presence of its download URL, its content fetch, and
the search fallback's status and result rows. -/
structure ResolveEnv where
  siteOk : Bool
  directMetaOk : Bool
  directHasDownloadUrl : Bool
  directContentOk : Bool
  directContent : String
  searchOk : Bool
  searchHits : List SearchHit
deriving DecidableEq, Repr

/-- The search-fallback loop (parse_reports.py:866-881): scan the result
rows in order, return the content of the first row whose name equals the
filename exactly and whose detail fetch, download URL and content fetch all
succeed; any partial failure moves on to the next row. -/
def searchHitLoop (filename : String) : List SearchHit → Option String
  | [] => none
  | h :: rest =>
    if h.name == filename && h.detailOk && h.hasDownloadUrl && h.contentOk then some h.content
    else searchHitLoop filename rest

/-- `download_sharepoint_file_from_path` (parse_reports.py:800-888): on site
fetch failure return `None` (:837-839); if the direct-path metadata fetch
returns success (:848), the result is its content when the download URL is
present and the content fetch succeeds, and `None` otherwise — the search
fallback is not consulted; only when the direct metadata fetch returns a
non-success status (:858) is the search fallback attempted, itself returning
`None` when the search call fails or no row yields content. -/
def download_sharepoint_file_from_path (env : ResolveEnv) (filename : String) : Option String :=
  if !env.siteOk then none
  else if env.directMetaOk then
    if env.directHasDownloadUrl && env.directContentOk then some env.directContent else none
  else if env.searchOk then searchHitLoop filename env.searchHits
  else none

/-- Eligibility as the specification words it: the processed flag is not a
true-variant, the owner tag equals the configured filter, and both path and
filename are non-empty. -/
def spec_eligible (processedVal : CellValue) (ownerTag ownerFilter path filename : String) :
    Bool :=
  !(isProcessedMark processedVal) && (ownerTag == ownerFilter) &&
    !(path == "") && !(filename == "")

/-- List item used for the run of claim C1: an unprocessed record with both
path and filename set. -/
def c1Item : SPItem :=
  { id := "1",
    fields := { path := "Reports/2025", reportfilename := "Weekly",
                processedA := .vNone, processedB := .vNone, processedC := .vNone,
                processedD := .vNone, monthlyreportprocessed := .vNone,
                manager := "Julian Brown" } }

/-- Record refuting claim C2: empty path, owner tag differing from the
configured filter, not processed. -/
def c2Fields : SPFields :=
  { path := "", reportfilename := "Report",
    processedA := .vNone, processedB := .vNone, processedC := .vNone,
    processedD := .vNone, monthlyreportprocessed := .vNone,
    manager := "Somebody Else" }

/-- A fully successful exact-name search hit. -/
def c3Hit : SearchHit :=
  { name := "file.xlsx", detailOk := true, hasDownloadUrl := true, contentOk := true,
    content := "BYTES" }

/-- Environment refuting claim C3: the direct metadata fetch succeeds but
its content fetch fails, while the exact-name search would succeed. -/
def c3Env : ResolveEnv :=
  { siteOk := true, directMetaOk := true, directHasDownloadUrl := true,
    directContentOk := false, directContent := "", searchOk := true,
    searchHits := [c3Hit] }

/-- Environment in which the direct metadata fetch fails and the exact-name
search succeeds, used by the witness of claim C3. -/
def c3EnvB : ResolveEnv :=
  { siteOk := true, directMetaOk := false, directHasDownloadUrl := false,
    directContentOk := false, directContent := "", searchOk := true,
    searchHits := [c3Hit] }

/-- First list item for the run of claim C5. -/
def c5ItemA : SPItem :=
  { id := "11",
    fields := { path := "Reports/2025", reportfilename := "WeeklyA",
                processedA := .vNone, processedB := .vNone, processedC := .vNone,
                processedD := .vNone, monthlyreportprocessed := .vNone,
                manager := "Julian Brown" } }

/-- Second list item for the run of claim C5. -/
def c5ItemB : SPItem :=
  { id := "12",
    fields := { path := "Reports/2025", reportfilename := "WeeklyB",
                processedA := .vNone, processedB := .vNone, processedC := .vNone,
                processedD := .vNone, monthlyreportprocessed := .vNone,
                manager := "Julian Brown" } }

/-- Concrete worksheet used by the witness of claim C6. -/
def c6Sheet : Sheet :=
  { cells := fun col row =>
      if col == 4 && row == 34 then CellValue.vStr "SSN9" else CellValue.vNone,
    mergedRanges := [] }

/-- Publish environment used by the witness of claim C7: the remote upload
fails, the local write succeeds. -/
def c7Env : PublishEnv := { uploadSucceeds := false, localWriteSucceeds := true }

/-- Worksheet of the C8 scenario: header cells filled, one service-standard
row `{id:"SSN1", status:"Green", comment:"ok"}`, every risk and issue
identifier cell blank. -/
def c8ScenarioSheet : Sheet :=
  { cells := fun col row =>
      if col == 7 && row == 7 then CellValue.vStr "2025-01-10"
      else if col == 7 && row == 11 then CellValue.vStr "Acme"
      else if col == 7 && row == 13 then CellValue.vStr "ClientCo"
      else if col == 4 && row == 34 then CellValue.vStr "SSN1"
      else if col == 10 && row == 34 then CellValue.vStr "Green"
      else if col == 11 && row == 34 then CellValue.vStr "ok"
      else CellValue.vNone,
    mergedRanges := [] }

/-- Worksheet refuting the inclusion iff of claim C8: the identifier cell
D34 holds the integer 0 — a non-empty cell that is falsy in Python. -/
def c8ZeroSheet : Sheet :=
  { cells := fun col row =>
      if col == 4 && row == 34 then CellValue.vInt 0 else CellValue.vNone,
    mergedRanges := [] }

/-- Worksheet used by the witness of claim C9: E33 lies inside a merged
range, one further merged range lies outside the table region. -/
def c9Sheet : Sheet :=
  { cells := fun _ _ => CellValue.vNone,
    mergedRanges := [ { minCol := 4, minRow := 33, maxCol := 8, maxRow := 35 },
                      { minCol := 1, minRow := 1, maxCol := 2, maxRow := 2 } ] }

/-- Merged range used by the witness of claim C9. -/
def c9Range : MergeRange := { minCol := 4, minRow := 33, maxCol := 8, maxRow := 35 }

/-- Fields with an empty `Reportfilename`, used by the witness of claim C10. -/
def c10EmptyFields : SPFields :=
  { path := "Reports/2025", reportfilename := "",
    processedA := .vNone, processedB := .vNone, processedC := .vNone,
    processedD := .vNone, monthlyreportprocessed := .vNone,
    manager := "Julian Brown" }

/-! Helper lemmas shared by the claim theorems. -/

/-- The constructed report filename always ends in `.xlsx`, hence is never
empty. -/
theorem mkReportFilename_ne_empty (raw : String) : mkReportFilename raw ≠ "" := by
  intro h
  have h2 : (pyStrip raw ++ ".xlsx").data = ("" : String).data := congrArg String.data h
  rw [String.data_append] at h2
  simp at h2

/-- The true boolean is one of the processed markers. -/
theorem isProcessedMark_vBool_true : isProcessedMark (CellValue.vBool true) = true := by decide

/-- A guarded `filterMap` is a `filter` followed by a `map`. -/
theorem filterMap_guard_eq {α β : Type} (p : α → Bool) (g : α → β) (l : List α) :
    (l.filterMap fun a => if p a then some (g a) else none) = (l.filter p).map g := by
  induction l with
  | nil => rfl
  | cons a t ih =>
    cases hp : p a <;> simp [List.filterMap_cons, List.filter_cons, hp, ih]

/-! The claim theorems. -/

/-- C1: the claim states that after every successful publish the pipeline
marks the item's source record processed, so that a re-scan with the same
filter excludes it.  The code does not: the `mark_file_as_processed` call at
parse_reports.py:537 is commented out (and the function is defined nowhere),
so a run that successfully publishes a record leaves the list state
unchanged, and a re-scan with the same filter offers the identical candidate
again. -/
theorem c1_processed_flag_never_marked :
    process_sharepoint_files_run true [c1Item] (fun _ => true) = (true, [c1Item])
    ∧ spf_candidate c1Item.fields = true
    ∧ spf_excel_files (process_sharepoint_files_run true [c1Item] (fun _ => true)).2
        = spf_excel_files [c1Item]
    ∧ spf_excel_files [c1Item] ≠ [] := by decide

/-- C2 counterexample: a record with an empty path and an owner tag that
does not match the configured filter is nevertheless included as a candidate
by `process_sharepoint_files`, so candidate inclusion is not equivalent to
the claimed eligibility predicate. -/
theorem c2_counterexample :
    spf_candidate c2Fields = true
    ∧ spec_eligible (processedValue c2Fields) c2Fields.manager "Julian Brown"
        c2Fields.path c2Fields.reportfilename = false := by decide

/-- C2 (amended): `process_sharepoint_files` includes a record as a
candidate iff its processed value (the first truthy of four field-name
variants, else `False`) is not one of the true-variants — its constructed
filename is never empty and it applies no owner or path check; only
`process_sharepoint_list_files` additionally requires the manager to equal
"Julian Brown" and both path and filename to be non-empty. -/
theorem c2_amended (f : SPFields) :
    spf_candidate f = !(isProcessedMark (processedValue f))
    ∧ splf_candidate f
        = (!(isProcessedMark f.monthlyreportprocessed) && decide (f.manager = "Julian Brown")
            && decide (f.path ≠ "") && decide (f.reportfilename ≠ "")) := by
  constructor
  · unfold spf_candidate
    simp [spf_filename, mkReportFilename_ne_empty f.reportfilename]
  · unfold splf_candidate
    by_cases h1 : f.monthlyreportprocessed = CellValue.vBool true
    · simp [h1, isProcessedMark_vBool_true]
    · by_cases h2 : f.manager = "Julian Brown"
      · by_cases h3 : f.path = "" ∨ f.reportfilename = ""
        · rcases h3 with h3 | h3 <;> simp [h1, h2, h3]
        · push_neg at h3
          simp [h1, h2, h3.1, h3.2]
      · simp [h1, h2]

/-- C3 counterexample: in an environment where the direct-path metadata
fetch succeeds but its content fetch fails, the resolver returns `None`
even though the exact-name search strategy would have returned content —
a strategy does not fall through on a non-success status of its content
fetch, contradicting the claimed fallback behaviour. -/
theorem c3_counterexample :
    download_sharepoint_file_from_path c3Env "file.xlsx" = none
    ∧ searchHitLoop "file.xlsx" c3Env.searchHits = some "BYTES" := by decide

/-- C3 (amended): `download_sharepoint_file_from_path` tries direct-path
lookup and then exact-name search only (there is no fuzzy stage in this
function); the search stage runs only when the direct metadata fetch
returns a non-success status — after a successful metadata fetch the result
is fixed by the direct strategy alone, whatever the search would return;
when the direct metadata fetch fails the result is exactly that of the
exact-name search loop; a `None` result makes the orchestrator skip the
item and continue with the rest of the batch. -/
theorem c3_amended (env envB : ResolveEnv) (filename : String)
    (h1 : env.directMetaOk = true)
    (h2 : envB.siteOk = true) (h3 : envB.directMetaOk = false) (h4 : envB.searchOk = true) :
    (∀ hits : List SearchHit,
      download_sharepoint_file_from_path { env with searchHits := hits } filename
        = download_sharepoint_file_from_path env filename)
    ∧ download_sharepoint_file_from_path envB filename = searchHitLoop filename envB.searchHits
    ∧ (∀ (itemSucceeds : ExcelFileInfo → Bool) (fi : ExcelFileInfo)
        (rest : List ExcelFileInfo) (acc : Nat), itemSucceeds fi = false →
        spfLoop itemSucceeds (fi :: rest) acc = spfLoop itemSucceeds rest acc) := by
  refine ⟨?_, ?_, ?_⟩
  · intro hits
    unfold download_sharepoint_file_from_path
    cases hs : env.siteOk <;> simp [hs, h1]
  · unfold download_sharepoint_file_from_path
    simp [h2, h3, h4]
  · intro itemSucceeds fi rest acc h
    simp [spfLoop, h]

/-- Witness for the amended C3 theorem at concrete environments. -/
theorem c3_amended_witness :
    download_sharepoint_file_from_path { c3Env with searchHits := [] } "file.xlsx"
        = download_sharepoint_file_from_path c3Env "file.xlsx"
    ∧ download_sharepoint_file_from_path c3EnvB "file.xlsx"
        = searchHitLoop "file.xlsx" c3EnvB.searchHits :=
  ⟨(c3_amended c3Env c3EnvB "file.xlsx" rfl rfl rfl rfl).1 [],
   (c3_amended c3Env c3EnvB "file.xlsx" rfl rfl rfl rfl).2.1⟩

/-- C4 counterexample: a connection failure and an empty list produce the
same scan result `[]`, and the orchestrator behaves identically on the two,
so a connection failure is not surfaced distinctly from an empty result. -/
theorem c4_counterexample :
    get_sharepoint_list_items ListQueryOutcome.connectionError
      = get_sharepoint_list_items (ListQueryOutcome.ok [])
    ∧ process_sharepoint_files_run true
        (get_sharepoint_list_items ListQueryOutcome.connectionError) (fun _ => true)
      = process_sharepoint_files_run true
        (get_sharepoint_list_items (ListQueryOutcome.ok [])) (fun _ => true)
    ∧ process_sharepoint_files_run true [] (fun _ => true) = (false, []) := by decide

/-- C4 (amended): the list scan returns the empty sequence when the list
has no rows, and it also returns the same empty sequence on a connection
failure; the orchestrator treats both identically, reporting "no items" and
returning `False`, rather than aborting distinctly on a connection
failure. -/
theorem c4_amended (tokenOk : Bool) (itemSucceeds : ExcelFileInfo → Bool) :
    get_sharepoint_list_items ListQueryOutcome.connectionError = []
    ∧ get_sharepoint_list_items (ListQueryOutcome.ok []) = []
    ∧ process_sharepoint_files_run tokenOk
        (get_sharepoint_list_items ListQueryOutcome.connectionError) itemSucceeds
      = (false, []) := by
  refine ⟨rfl, rfl, ?_⟩
  cases tokenOk <;> rfl

/-- C5: the claim states the run-level result is the count of items
reaching the marked state and that the HTTP wrapper logs and returns
exactly that count.  The code returns the boolean `success_count > 0`
(parse_reports.py:546), which `http_trigger` (function_app.py:12-17)
interpolates as a file count: on a run in which two items are successfully
published, the logged and returned message is "Processed True files.",
not "Processed 2 files." — and no item is ever marked (see C1). -/
theorem c5_wrapper_returns_boolean_not_count :
    http_trigger_message true [c5ItemA, c5ItemB] (fun _ => true) = "Processed True files."
    ∧ spfLoop (fun _ => true) (spf_excel_files [c5ItemA, c5ItemB]) 0 = 2
    ∧ http_trigger_message true [c5ItemA, c5ItemB] (fun _ => true)
        ≠ "Processed 2 files." := by decide

/-- C6: extraction followed by serialization applied to the same workbook
state produces byte-identical artifact text — the extraction of
`_process_workbook_data` is a pure function of the loaded workbook. -/
theorem c6_artifact_determinism (s1 s2 : Sheet) (h : s1 = s2) :
    extractArtifactText s1 = extractArtifactText s2 := by rw [h]

/-- Witness for C6 at a concrete workbook. -/
theorem c6_artifact_determinism_witness :
    extractArtifactText c6Sheet = extractArtifactText c6Sheet :=
  c6_artifact_determinism c6Sheet c6Sheet rfl

/-- C7: when a remote target is supplied and the remote upload fails, a
successful publish has written the full extracted text to a local file
named exactly the input filename with its final extension replaced by
`.txt`; and every successful publish leaves the artifact retrievable, with
its full text, from at least one of the two locations. -/
theorem c7_publish_durability (tok : Bool) (env : PublishEnv) (text inputName : String)
    (h : (publishStep tok env text (outputTxtName inputName)).1 = true) :
    (tok = true → env.uploadSucceeds = false →
      StoredArtifact.localFile (dropFinalExtension inputName ++ ".txt") text
        ∈ (publishStep tok env text (outputTxtName inputName)).2)
    ∧ ∃ a ∈ (publishStep tok env text (outputTxtName inputName)).2,
        artifactPayload a = text := by
  unfold publishStep at h ⊢
  by_cases hu : (tok && env.uploadSucceeds) = true
  · constructor
    · intro h1 h2
      rw [h1, h2] at hu
      simp at hu
    · simp [hu, artifactPayload]
  · rw [Bool.not_eq_true] at hu
    by_cases hl : env.localWriteSucceeds = true
    · simp [hu, hl, artifactPayload, outputTxtName]
    · rw [Bool.not_eq_true] at hl
      simp [hu, hl] at h

/-- Witness for C7: token supplied, upload fails, local write succeeds. -/
theorem c7_publish_durability_witness :
    (true = true → c7Env.uploadSucceeds = false →
      StoredArtifact.localFile (dropFinalExtension "report.xlsx" ++ ".txt") "TEXT"
        ∈ (publishStep true c7Env "TEXT" (outputTxtName "report.xlsx")).2)
    ∧ ∃ a ∈ (publishStep true c7Env "TEXT" (outputTxtName "report.xlsx")).2,
        artifactPayload a = "TEXT" :=
  c7_publish_durability true c7Env "TEXT" "report.xlsx" (by decide)

/-- C8 counterexample: the identifier cell D34 holding the integer 0 is
non-empty (neither `None` nor the empty string), yet the row is excluded
from the artifact — inclusion is Python truthiness, not non-emptiness. -/
theorem c8_counterexample :
    cellAt c8ZeroSheet 4 34 ≠ CellValue.vNone
    ∧ cellAt c8ZeroSheet 4 34 ≠ CellValue.vStr ""
    ∧ serviceStandardLines c8ZeroSheet = [] := by decide

/-- C8 (amended): within each repeating section's fixed row range a row is
included iff its column-D cell is truthy under Python semantics (for
blank-or-string identifier cells this coincides with non-emptiness, but a
numeric zero is excluded), rows appear in spreadsheet row order with
columns joined by the pipe character; and the concrete scenario holds: the
sheet with one service-standard row `{SSN1, Green, ok}` and all risk
identifier cells blank yields the line `SSN1|Green|ok` and an empty line
directly under the risk-section column header. -/
theorem c8_amended (sheet : Sheet) :
    serviceStandardLines sheet
      = ((List.range' 34 9).filter (fun row => pyTruthy (cellAt sheet 4 row))).map
          (fun row => pyStr (cellAt sheet 4 row) ++ "|" ++ pyStr (cellAt sheet 10 row) ++ "|" ++
            pyStr (cellAt sheet 11 row))
    ∧ riskLines sheet
      = ((List.range' 45 3).filter (fun row => pyTruthy (cellAt sheet 4 row))).map
          (fun row => pyStr (cellAt sheet 4 row) ++ "|" ++ pyStr (cellAt sheet 5 row) ++ "|" ++
            pyStr (cellAt sheet 8 row) ++ "|" ++ pyStr (cellAt sheet 10 row) ++ "|" ++
            pyStr (cellAt sheet 11 row))
    ∧ issueLines sheet
      = ((List.range' 50 3).filter (fun row => pyTruthy (cellAt sheet 4 row))).map
          (fun row => pyStr (cellAt sheet 4 row) ++ "|" ++ pyStr (cellAt sheet 5 row) ++ "|" ++
            pyStr (cellAt sheet 10 row) ++ "|" ++ pyStr (cellAt sheet 11 row))
    ∧ buildContentLines c8ScenarioSheet =
        ["Week Ending: 2025-01-10", "Service Provider: Acme", "Client: ClientCo", "",
         "Service Standard updates:", "SSN|Status|Comments", "SSN1|Green|ok",
         "", "Service Risks:", "Risk No|Description|Likelihood|Impact|Mitigation",
         "", "Service Issues:", "Issue No|Description|Impact|Mitigation",
         "", "Planned Activities:", "",
         "", "Client Updates:", ""] := by
  refine ⟨?_, ?_, ?_, by decide⟩
  · exact filterMap_guard_eq _ _ _
  · exact filterMap_guard_eq _ _ _
  · exact filterMap_guard_eq _ _ _

/-- C9: extraction first checks whether the anchor cell E33 (column 5,
row 33) lies in a merged range; if it does not, no split is performed and
the sheet is untouched; if it does, cell values are unchanged and exactly
the merged ranges overlapping the fixed bounding rectangle (columns 4–19,
rows 31–72) are split away — and for a well-formed range the source's
overlap test coincides with genuinely intersecting that rectangle. -/
theorem c9_merge_normalization (sheet : Sheet) (r : MergeRange)
    (hc : r.minCol ≤ r.maxCol) (hr : r.minRow ≤ r.maxRow) :
    ((is_cell_merged sheet 5 33).1 = false → unmergeStep sheet = sheet)
    ∧ ((is_cell_merged sheet 5 33).1 = true →
        (unmergeStep sheet).cells = sheet.cells
        ∧ (unmergeStep sheet).mergedRanges
            = sheet.mergedRanges.filter (fun q => !(overlapsTableRegion q)))
    ∧ (overlapsTableRegion r = true ↔ intersectsTableRegion r) := by
  refine ⟨?_, ?_, ?_⟩
  · intro h
    simp [unmergeStep, h]
  · intro h
    constructor <;> simp [unmergeStep, h]
  · have key : overlapsTableRegion r = true ↔
        (4 ≤ r.maxCol ∧ r.minCol ≤ 19 ∧ 31 ≤ r.maxRow ∧ r.minRow ≤ 72) := by
      simp [overlapsTableRegion]
      omega
    rw [key]
    constructor
    · rintro ⟨k1, k2, k3, k4⟩
      rcases le_total r.minCol 4 with hm | hm
      · rcases le_total r.minRow 31 with hw | hw
        · exact ⟨4, 31, by omega, by omega, by omega, by omega,
            by omega, by omega, by omega, by omega⟩
        · exact ⟨4, r.minRow, by omega, by omega, by omega, by omega,
            by omega, by omega, by omega, by omega⟩
      · rcases le_total r.minRow 31 with hw | hw
        · exact ⟨r.minCol, 31, by omega, by omega, by omega, by omega,
            by omega, by omega, by omega, by omega⟩
        · exact ⟨r.minCol, r.minRow, by omega, by omega, by omega, by omega,
            by omega, by omega, by omega, by omega⟩
    · rintro ⟨c, w, a1, a2, a3, a4, a5, a6, a7, a8⟩
      omega

/-- Witness for C9 at a concrete sheet and merged range. -/
theorem c9_merge_normalization_witness :
    ((is_cell_merged c9Sheet 5 33).1 = false → unmergeStep c9Sheet = c9Sheet)
    ∧ ((is_cell_merged c9Sheet 5 33).1 = true →
        (unmergeStep c9Sheet).cells = c9Sheet.cells
        ∧ (unmergeStep c9Sheet).mergedRanges
            = c9Sheet.mergedRanges.filter (fun q => !(overlapsTableRegion q)))
    ∧ (overlapsTableRegion c9Range = true ↔ intersectsTableRegion c9Range) :=
  c9_merge_normalization c9Sheet c9Range (by decide) (by decide)

/-- C10: the filename used for resolution is the stripped `Reportfilename`
with `.xlsx` appended unconditionally, so a name already ending in `.xlsx`
resolves as `<name>.xlsx.xlsx` and an empty `Reportfilename` yields the
filename `.xlsx`, which is never empty and therefore passes the candidate
filter's non-empty filename check. -/
theorem c10_filename_normalization :
    (∀ raw : String, mkReportFilename raw = pyStrip raw ++ ".xlsx" ∧ mkReportFilename raw ≠ "")
    ∧ mkReportFilename "Report.xlsx" = "Report.xlsx.xlsx"
    ∧ mkReportFilename "" = ".xlsx"
    ∧ (∀ f : SPFields, f.reportfilename = "" →
        spf_filename f = ".xlsx" ∧ decide (spf_filename f ≠ "") = true) := by
  refine ⟨fun raw => ⟨rfl, mkReportFilename_ne_empty raw⟩, by decide, by decide, ?_⟩
  intro f h
  constructor
  · simp [spf_filename, h]
    decide
  · simpa [spf_filename] using mkReportFilename_ne_empty f.reportfilename

/-- Witness for C10 at a record with an empty `Reportfilename`. -/
theorem c10_filename_normalization_witness :
    spf_filename c10EmptyFields = ".xlsx"
    ∧ decide (spf_filename c10EmptyFields ≠ "") = true :=
  c10_filename_normalization.2.2.2 c10EmptyFields rfl

end MonthlyReport
